import Mathlib

/-!
Verification development for the miniAPP weather client (`src/App.tsx`).

The program is a single React component that composes a debounced city
search (geocoding API), a weather fetch (forecast API), a favorites list
and a last-selected city, both persisted in `localStorage`.

This file gives a shallow embedding of the state and the operations of
that component, translated from the TypeScript source:

* JavaScript numbers (latitudes, longitudes, temperatures, …) are
  modelled as rationals (`Rat`); the claims only compare them for
  equality.
* Arrays are `List`s; `Array.prototype.slice(0, n)` is `List.take n`.
* `localStorage` is modelled explicitly where a claim needs it; writes
  via `localStorage.setItem` are wrapped in the source in a `try`/`catch`
  that swallows environment failures (quota, …), so a write is modelled
  as succeeding.
* A network call is modelled by its outcome: success with a typed
  response, an abort error (the request's `AbortController` fired), or
  any other failure (HTTP error, network error, shape error).
* Each `async` function's body is translated in statement order into an
  effect trace plus a state-transformer obtained by folding the trace.
-/

/-- Structure `City`, from `App.tsx` lines 21–26. -/
structure City where
  name : String
  country : Option String
  latitude : Rat
  longitude : Rat
deriving DecidableEq, Repr

/-- The equality triple used for favorites membership
(`App.tsx` lines 96–101 and 218–225): latitude, longitude and name are
compared with `===`; `country` is ignored. -/
def sameCity (a b : City) : Bool :=
  a.latitude == b.latitude && a.longitude == b.longitude && a.name == b.name

/-- Predicate `hasFavorited` (`App.tsx` lines 94–102): `false` when no city is
selected, otherwise `favorites.some` of the equality triple against the
selected city. -/
def hasFavorited (favorites : List City) (selectedCity : Option City) : Bool :=
  match selectedCity with
  | none => false
  | some sc =>
    favorites.any fun c =>
      c.latitude == sc.latitude && c.longitude == sc.longitude && c.name == sc.name

/-- The favorites-list update performed by `toggleFavorite`
(`App.tsx` lines 215–230) for a selected city: if the city is present by
the equality triple, `filter` it out; otherwise prepend it and
`slice(0, 20)`. -/
def toggleFavorite (favorites : List City) (selectedCity : City) : List City :=
  if hasFavorited favorites (some selectedCity) then
    favorites.filter fun c => !(sameCity c selectedCity)
  else
    (selectedCity :: favorites).take 20

/-- Function `toggleFavorite` together with `saveFavorites` (`App.tsx`
lines 104–111): the new list is both set in memory and written to the
favorites storage key (the storage write succeeds; the source swallows
environment failures). Returns (new favorites state, new stored value). -/
def toggleFavoriteApp (favorites : List City) (selectedCity : City) :
    List City × Option (List City) :=
  let next := toggleFavorite favorites selectedCity
  (next, some next)

/-- System state for the favorites invariant: the in-memory list and the
content of the favorites storage key (`miniapp:favorites`), which only
`saveFavorites` ever writes. -/
structure FavSys where
  favorites : List City
  stored : Option (List City)
deriving DecidableEq, Repr

/-- Initial state: no favorites in memory, nothing stored. -/
def initFavSys : FavSys := ⟨[], none⟩

/-- Transitions that set the favorites list: a favorite toggle for some
selected city (`App.tsx` lines 215–230, writing storage through
`saveFavorites`), and a session restart whose startup effect restores the
stored list (`App.tsx` lines 68–79: the new session starts from `[]` and
sets favorites from storage when the key is present). -/
inductive FavStep : FavSys → FavSys → Prop where
  | toggle (c : City) (s : FavSys) :
      FavStep s ⟨(toggleFavoriteApp s.favorites c).1, (toggleFavoriteApp s.favorites c).2⟩
  | restart (s : FavSys) :
      FavStep s ⟨s.stored.getD [], s.stored⟩

/-- Reachability of a favorites-system state from startup. -/
def ReachableFav (s : FavSys) : Prop :=
  Relation.ReflTransGen FavStep initFavSys s

/-- The favorites invariant: at most 20 entries and no two entries equal
under the (name, latitude, longitude) triple. -/
def goodFavs (l : List City) : Prop :=
  l.length ≤ 20 ∧ l.Pairwise fun a b => sameCity a b = false

-- Basic facts about the equality triple.

theorem sameCity_iff (a b : City) :
    sameCity a b = true ↔ a.latitude = b.latitude ∧ a.longitude = b.longitude ∧ a.name = b.name := by
  simp [sameCity, Bool.and_eq_true, and_assoc]

theorem sameCity_symm (a b : City) : sameCity a b = sameCity b a := by
  rcases h : sameCity b a with _ | _
  · rcases h2 : sameCity a b with _ | _
    · rfl
    · rw [sameCity_iff] at h2
      rw [Bool.eq_false_iff] at h
      exact absurd ((sameCity_iff b a).mpr ⟨h2.1.symm, h2.2.1.symm, h2.2.2.symm⟩) h
  · rw [sameCity_iff] at h
    exact (sameCity_iff a b).mpr ⟨h.1.symm, h.2.1.symm, h.2.2.symm⟩

theorem sameCity_refl (a : City) : sameCity a a = true := by
  simp [sameCity]

theorem hasFavorited_eq_any (l : List City) (sc : City) :
    hasFavorited l (some sc) = l.any fun c => sameCity c sc := by
  simp [hasFavorited, sameCity]

theorem hasFavorited_eq_false_iff (l : List City) (sc : City) :
    hasFavorited l (some sc) = false ↔ ∀ c ∈ l, sameCity c sc = false := by
  rw [hasFavorited_eq_any]
  simp [List.any_eq_false]

theorem hasFavorited_eq_true_iff (l : List City) (sc : City) :
    hasFavorited l (some sc) = true ↔ ∃ c ∈ l, sameCity c sc = true := by
  rw [hasFavorited_eq_any]
  simp [List.any_eq_true]

/-- A toggle preserves the favorites invariant. -/
theorem toggleFavorite_preserves_goodFavs (l : List City) (c : City) (h : goodFavs l) :
    goodFavs (toggleFavorite l c) := by
  obtain ⟨hlen, hpw⟩ := h
  unfold toggleFavorite
  rcases hfav : hasFavorited l (some c) with _ | _
  · simp only [Bool.false_eq_true, if_false]
    rw [hasFavorited_eq_false_iff] at hfav
    constructor
    · have := List.length_take_le 20 (c :: l)
      omega
    · apply List.Pairwise.sublist (List.take_sublist _ _)
      rw [List.pairwise_cons]
      refine ⟨fun b hb => ?_, hpw⟩
      rw [sameCity_symm]
      exact hfav b hb
  · simp only [if_true]
    constructor
    · exact le_trans (List.length_filter_le _ _) hlen
    · exact List.Pairwise.sublist (List.filter_sublist _) hpw

/-- A single step preserves the invariant on both the in-memory list and
the stored list. -/
theorem favStep_preserves (a b : FavSys) (step : FavStep a b)
    (ha : goodFavs a.favorites ∧ ∀ l, a.stored = some l → goodFavs l) :
    goodFavs b.favorites ∧ ∀ l, b.stored = some l → goodFavs l := by
  obtain ⟨hmem, hst⟩ := ha
  cases step with
  | toggle c =>
    have hg := toggleFavorite_preserves_goodFavs a.favorites c hmem
    refine ⟨hg, fun l hl => ?_⟩
    simp only [toggleFavoriteApp] at hl
    injection hl with hl
    exact hl ▸ hg
  | restart =>
    cases hs : a.stored with
    | none => exact ⟨by simp [hs, goodFavs], fun l hl => by simp [hs] at hl⟩
    | some l =>
      refine ⟨by simpa [hs] using hst l hs, fun l2 hl2 => ?_⟩
      simp only [hs] at hl2
      injection hl2 with hl2
      exact hl2 ▸ hst l hs

/-- The invariant holds of the in-memory list and the stored list in
every reachable state. -/
theorem reachableFav_invariant (s : FavSys) (h : ReachableFav s) :
    goodFavs s.favorites ∧ ∀ l, s.stored = some l → goodFavs l := by
  induction h with
  | refl =>
    exact ⟨⟨by simp [initFavSys], by simp [initFavSys]⟩, by simp [initFavSys]⟩
  | tail hp step ih => exact favStep_preserves _ _ step ih

/-- The `current_weather` record of the forecast response
(`App.tsx` lines 37–43 and 186–192). -/
structure CurrentWeather where
  temperature : Rat
  windspeed : Rat
  winddirection : Rat
  time : String
deriving DecidableEq, Repr

/-- The `hourly` record of the forecast response and of the stored
`WeatherData` (`App.tsx` lines 44–48). -/
structure HourlyData where
  time : List String
  temperature_2m : List Rat
  relativehumidity_2m : List Rat
deriving DecidableEq, Repr

/-- Structure `WeatherData` (`App.tsx` lines 37–49). -/
structure WeatherData where
  current : Option CurrentWeather
  hourly : Option HourlyData
deriving DecidableEq, Repr

/-- A successfully parsed forecast response, as destructured at
`App.tsx` lines 177–179 (`data.current_weather`, `data.hourly`); a
response missing these fields throws and is a failure outcome instead. -/
structure ForecastResponse where
  current_weather : CurrentWeather
  hourly : HourlyData
deriving DecidableEq, Repr

/-- The hourly truncation of `fetchWeather` (`App.tsx` lines 180–185):
`next24IdxEnd = min 24 hourly.time.length`, and all three arrays are
`slice(0, next24IdxEnd)`. -/
def hourlySlice (h : HourlyData) : HourlyData :=
  let next24IdxEnd := min 24 h.time.length
  { time := h.time.take next24IdxEnd
    temperature_2m := h.temperature_2m.take next24IdxEnd
    relativehumidity_2m := h.relativehumidity_2m.take next24IdxEnd }

/-- The `WeatherData` stored by `setWeather` on success
(`App.tsx` lines 186–194). -/
def shapeWeather (data : ForecastResponse) : WeatherData :=
  { current := some data.current_weather, hourly := some (hourlySlice data.hourly) }

/-- One result row of the geocoding response
(`App.tsx` lines 28–35). -/
structure GeoResult where
  name : String
  country : Option String
  latitude : Rat
  longitude : Rat
deriving DecidableEq, Repr

/-- Structure `GeocodingResponse` (`App.tsx` lines 28–35): the `results` field is
optional. -/
structure GeocodingResponse where
  results : Option (List GeoResult)
deriving DecidableEq, Repr

/-- The suggestion list built from a geocoding response
(`App.tsx` lines 140–146): `data.results?.map(...) ?? []`. -/
def mapResults (data : GeocodingResponse) : List City :=
  (data.results.getD []).map fun r =>
    { name := r.name, country := r.country, latitude := r.latitude, longitude := r.longitude }

/-- Outcome of an awaited network request: a typed successful response,
an abort (the request's `AbortController` fired, so the awaited promise
rejected with an `AbortError`, recognised by `isAbortError`,
`App.tsx` lines 12–19), or any other failure (HTTP error status, network
error, JSON shape error). -/
inductive FetchOutcome (α : Type) where
  | success (data : α)
  | abortError
  | failure
deriving DecidableEq, Repr

/-- The whitespace characters removed by JavaScript
`String.prototype.trim`: the ECMAScript WhiteSpace production
(TAB U+0009, VT U+000B, FF U+000C, SP U+0020, NBSP U+00A0,
ZWNBSP U+FEFF, and the Unicode Space_Separator category: U+1680,
U+2000–U+200A, U+202F, U+205F, U+3000) together with the
LineTerminator production (LF U+000A, CR U+000D, LS U+2028,
PS U+2029). -/
def isJsWhitespace (c : Char) : Bool :=
  let n := c.toNat
  n = 0x9 || n = 0xa || n = 0xb || n = 0xc || n = 0xd || n = 0x20 ||
    n = 0xa0 || n = 0x1680 || (0x2000 ≤ n && n ≤ 0x200a) ||
    n = 0x2028 || n = 0x2029 || n = 0x202f || n = 0x205f ||
    n = 0x3000 || n = 0xfeff

/-- Model of JavaScript `String.prototype.trim`: drop leading and
trailing whitespace. -/
def jsTrim (s : String) : String :=
  ⟨((s.data.dropWhile isJsWhitespace).reverse.dropWhile isJsWhitespace).reverse⟩

/-- The localized error message set by a failed suggestion fetch
(`App.tsx` line 150). -/
def suggestErrorMsg : String := "城市搜索失败，请稍后重试"

/-- The localized error message set by a failed weather fetch
(`App.tsx` line 202). -/
def weatherErrorMsg : String := "天气数据获取失败，请稍后重试"

/-- The observable effects of one `fetchSuggestions` call
(`App.tsx` lines 123–155), in statement order. -/
inductive SuggestEff where
  | setSuggestions (l : List City)
  | setLoadingSuggest (b : Bool)
  | abortPrevious
  | issueRequest (name : String)
  | showError (m : String)
deriving DecidableEq, Repr

/-- Effect trace of one `fetchSuggestions name` call whose awaited fetch
ends with `outcome`, given the current `loadingSuggest` flag
(read at `App.tsx` line 128). Mirrors the source statement order:
the whitespace short-circuit (lines 124–127), the loading-flag writes
(lines 128–129), the abort of the previous controller (line 130), the
request (line 137), `setSuggestions` on success (line 147), the guarded
`setError` in `catch` (lines 148–151), `setLoadingSuggest(false)` in
`finally` (lines 152–154). -/
def fetchSuggestionsTrace (loadingSuggest : Bool) (name : String)
    (outcome : FetchOutcome GeocodingResponse) : List SuggestEff :=
  if (jsTrim name).isEmpty then
    [SuggestEff.setSuggestions []]
  else
    (if loadingSuggest then [SuggestEff.setLoadingSuggest false] else []) ++
      [SuggestEff.setLoadingSuggest true, SuggestEff.abortPrevious,
        SuggestEff.issueRequest name] ++
      (match outcome with
       | FetchOutcome.success data => [SuggestEff.setSuggestions (mapResults data)]
       | FetchOutcome.abortError => []
       | FetchOutcome.failure => [SuggestEff.showError suggestErrorMsg]) ++
      [SuggestEff.setLoadingSuggest false]

/-- The suggestion-related component state
(`App.tsx` lines 56, 61, 62). -/
structure SuggestUiState where
  suggestions : List City
  loadingSuggest : Bool
  error : Option String
deriving DecidableEq, Repr

/-- Interpretation of one suggestion effect on the component state. -/
def applySuggestEff (st : SuggestUiState) : SuggestEff → SuggestUiState
  | SuggestEff.setSuggestions l => { st with suggestions := l }
  | SuggestEff.setLoadingSuggest b => { st with loadingSuggest := b }
  | SuggestEff.abortPrevious => st
  | SuggestEff.issueRequest _ => st
  | SuggestEff.showError m => { st with error := some m }

/-- State after one `fetchSuggestions` call: the effect trace folded over
the state. -/
def runSuggest (st : SuggestUiState) (name : String)
    (outcome : FetchOutcome GeocodingResponse) : SuggestUiState :=
  (fetchSuggestionsTrace st.loadingSuggest name outcome).foldl applySuggestEff st

/-- The observable effects of one `fetchWeather` call
(`App.tsx` lines 157–207), in statement order. -/
inductive WeatherEff where
  | clearWeather
  | setLoading (b : Bool)
  | clearError
  | abortPrevious
  | issueRequest (latitude longitude : Rat)
  | setWeatherData (w : WeatherData)
  | storeLastCity (c : City)
  | showError (m : String)
deriving DecidableEq, Repr

/-- Effect trace of one `fetchWeather city` call whose awaited fetch ends
with `outcome`. Mirrors the source statement order: `setWeather(null)`,
`setLoading(true)`, `setError(null)` (lines 158–160), abort of the
previous controller (line 161), the request with the city's coordinates
(lines 165–175), on success `setWeather` of the shaped data then the
`localStorage` write of the city under the last-city key
(lines 186–199; the write swallows environment failures), the guarded
`setError` in `catch` (lines 200–203), `setLoading(false)` in `finally`
(lines 204–206). -/
def fetchWeatherTrace (city : City) (outcome : FetchOutcome ForecastResponse) :
    List WeatherEff :=
  [WeatherEff.clearWeather, WeatherEff.setLoading true, WeatherEff.clearError,
    WeatherEff.abortPrevious, WeatherEff.issueRequest city.latitude city.longitude] ++
    (match outcome with
     | FetchOutcome.success data =>
       [WeatherEff.setWeatherData (shapeWeather data), WeatherEff.storeLastCity city]
     | FetchOutcome.abortError => []
     | FetchOutcome.failure => [WeatherEff.showError weatherErrorMsg]) ++
    [WeatherEff.setLoading false]

/-- The weather-related component state plus the last-city storage key
(`App.tsx` lines 59, 60, 62, and the `miniapp:lastCity` key). -/
structure WeatherUiState where
  weather : Option WeatherData
  loading : Bool
  error : Option String
  storedLastCity : Option City
deriving DecidableEq, Repr

/-- Interpretation of one weather effect on the component state and the
last-city storage key. -/
def applyWeatherEff (st : WeatherUiState) : WeatherEff → WeatherUiState
  | WeatherEff.clearWeather => { st with weather := none }
  | WeatherEff.setLoading b => { st with loading := b }
  | WeatherEff.clearError => { st with error := none }
  | WeatherEff.abortPrevious => st
  | WeatherEff.issueRequest _ _ => st
  | WeatherEff.setWeatherData w => { st with weather := some w }
  | WeatherEff.storeLastCity c => { st with storedLastCity := some c }
  | WeatherEff.showError m => { st with error := some m }

/-- State after one `fetchWeather` call: the effect trace folded over the
state. -/
def runWeather (st : WeatherUiState) (city : City)
    (outcome : FetchOutcome ForecastResponse) : WeatherUiState :=
  (fetchWeatherTrace city outcome).foldl applyWeatherEff st

/-- Does a suggestion effect set an error message? -/
def SuggestEff.isShowError : SuggestEff → Bool
  | SuggestEff.showError _ => true
  | _ => false

/-- Does a weather effect set an error message? -/
def WeatherEff.isShowError : WeatherEff → Bool
  | WeatherEff.showError _ => true
  | _ => false

/-- Does a weather effect write the last-city storage key? -/
def WeatherEff.isStoreLastCity : WeatherEff → Bool
  | WeatherEff.storeLastCity _ => true
  | _ => false

/-- Does a suggestion effect issue a network request? -/
def SuggestEff.isIssueRequest : SuggestEff → Bool
  | SuggestEff.issueRequest _ => true
  | _ => false

/-- Generic model of a `useRef`-kept `AbortController` chain
(`suggestAbortRef` / `weatherAbortRef`, `App.tsx` lines 64–65), shared by
the suggestion and the weather fetch. `nextId` numbers the controllers
created so far, `current` is the controller held in the ref, `aborted`
the set of controllers whose `abort()` has been called, `value` the piece
of state the fetch writes on success (`setSuggestions` / `setWeather`),
and `writer` the id of the request that last wrote it. -/
structure ReqSys (α : Type) where
  nextId : Nat
  current : Option Nat
  aborted : List Nat
  value : Option α
  writer : Option Nat
deriving Repr

/-- Issuing a new request of one kind (`App.tsx` lines 130–132 or
161–163): abort the controller currently in the ref, create a fresh
controller, store it in the ref. -/
def issueReq {α : Type} (s : ReqSys α) : ReqSys α :=
  { nextId := s.nextId + 1
    current := some s.nextId
    aborted :=
      match s.current with
      | some i => i :: s.aborted
      | none => s.aborted
    value := s.value
    writer := s.writer }

/-- Completion of the awaited fetch of request `id`. When the request's
controller has been aborted, the awaited promise rejects with an
`AbortError`, the `catch` recognises it (`isAbortError`, `App.tsx`
lines 12–19) and writes nothing; otherwise the success path stores the
result (`setSuggestions` at line 147 / `setWeather` at line 186). -/
def completeReq {α : Type} (s : ReqSys α) (id : Nat) (result : α) : ReqSys α :=
  if id ∈ s.aborted then s
  else { s with value := some result, writer := some id }

/-- Interleaved events on one request kind. -/
inductive ReqEvent (α : Type) where
  | issue
  | complete (id : Nat) (result : α)

/-- Run a sequence of request events. -/
def runReq {α : Type} (s : ReqSys α) : List (ReqEvent α) → ReqSys α
  | [] => s
  | ReqEvent.issue :: es => runReq (issueReq s) es
  | ReqEvent.complete id r :: es => runReq (completeReq s id r) es

/-- The suggestion request chain writes the suggestion list. -/
def SuggestReqSys := ReqSys (List City)

/-- The weather request chain writes the weather data. -/
def WeatherReqSys := ReqSys WeatherData

/-- No event un-aborts a controller. -/
theorem runReq_aborted_mono {α : Type} (es : List (ReqEvent α)) (s : ReqSys α) (i : Nat)
    (h : i ∈ s.aborted) : i ∈ (runReq s es).aborted := by
  induction es generalizing s with
  | nil => exact h
  | cons e es ih =>
    cases e with
    | issue =>
      apply ih
      simp only [issueReq]
      cases s.current with
      | none => exact h
      | some j => exact List.mem_cons_of_mem j h
    | complete id r =>
      apply ih
      simp only [completeReq]
      split
      · exact h
      · exact h

/-- Completing an aborted request changes neither the written value nor
the writer. -/
theorem completeReq_aborted {α : Type} (s : ReqSys α) (i : Nat) (r : α)
    (h : i ∈ s.aborted) :
    (completeReq s i r).value = s.value ∧ (completeReq s i r).writer = s.writer := by
  simp [completeReq, h]

/-- The debounce state of the query input: the pending timer armed by
`setTimeout` (fire time and captured query), and the list of queries for
which `fetchSuggestions` has been invoked, in order. -/
structure DebounceState where
  pendingTimer : Option (Nat × String)
  calls : List String
deriving DecidableEq, Repr

/-- Time reaching instant `t`: the pending timer fires (invoking
`fetchSuggestions` with its captured query) when its fire time has
arrived (`App.tsx` lines 118–120). -/
def debFire (t : Nat) (st : DebounceState) : DebounceState :=
  match st.pendingTimer with
  | some (ft, v) =>
    if ft ≤ t then { pendingTimer := none, calls := st.calls ++ [v] }
    else st
  | none => st

/-- Handler `onQueryChange` at instant `t` with input `v`
(`App.tsx` lines 113–121): any timer due by now has already fired; the
keystroke then clears the pending timer (`clearTimeout`, line 117) and
arms a new one for `t + 300` capturing `v` (lines 118–120). -/
def onQueryChange (t : Nat) (v : String) (st : DebounceState) : DebounceState :=
  let st := debFire t st
  { pendingTimer := some (t + 300, v), calls := st.calls }

/-- Run a timestamped sequence of keystrokes. -/
def runKeystrokes (st : DebounceState) : List (Nat × String) → DebounceState
  | [] => st
  | (t, v) :: rest => runKeystrokes (onQueryChange t v st) rest

/-- Keystroke timestamps starting strictly within 300 time units of the
given instant, each subsequent one strictly within 300 of its
predecessor, with time monotone. -/
def chainedFrom : Nat → List (Nat × String) → Bool
  | _, [] => true
  | t, (t2, _) :: rest => decide (t ≤ t2) && decide (t2 < t + 300) && chainedFrom t2 rest

/-- The last keystroke of a nonempty sequence (head given separately). -/
def lastKeystroke (p : Nat × String) : List (Nat × String) → Nat × String
  | [] => p
  | q :: rest => lastKeystroke q rest

/-- A raw value under the favorites storage key, as seen by the startup
effect: either JSON that parses to a list of cities, or malformed JSON
(`JSON.parse` throws). -/
inductive FavRaw where
  | good (l : List City)
  | bad
deriving DecidableEq, Repr

/-- A raw value under the last-city storage key: JSON that parses to a
city, or malformed JSON. -/
inductive CityRaw where
  | good (c : City)
  | bad
deriving DecidableEq, Repr

/-- The two storage keys read at startup (`App.tsx` lines 51–52);
`none` models a missing key (or an empty stored string, which is equally
falsy at lines 71 and 73). -/
structure RawStore where
  favRaw : Option FavRaw
  lastCityRaw : Option CityRaw
deriving DecidableEq, Repr

/-- The startup restore effect (`App.tsx` lines 68–79): inside a single
`try`, read the favorites key and, when present, `JSON.parse` it and set
favorites; then read the last-city key and, when present, `JSON.parse`
it and set the selected city. A `JSON.parse` throw jumps to the one
`catch`, which ignores the error, leaving whatever had been set before
the throw. Returns (favorites, selected city) after the effect, starting
from the initial state `([], none)` of lines 56–58. -/
def startupRestore (store : RawStore) : List City × Option City :=
  match store.favRaw with
  | some FavRaw.bad => ([], none)
  | some (FavRaw.good l) =>
    match store.lastCityRaw with
    | some CityRaw.bad => (l, none)
    | some (CityRaw.good c) => (l, some c)
    | none => (l, none)
  | none =>
    match store.lastCityRaw with
    | some CityRaw.bad => ([], none)
    | some (CityRaw.good c) => ([], some c)
    | none => ([], none)

/-- The weather fetches triggered by the startup restore: the effect at
`App.tsx` lines 89–92 runs `fetchWeather(selectedCity)` exactly once
when the restored selected city is non-null, and nothing otherwise. -/
def startupWeatherFetches (store : RawStore) : List City :=
  match (startupRestore store).2 with
  | some c => [c]
  | none => []

-- Concrete cities used in witnesses and counterexamples.

/-- A concrete city for witnesses. -/
def cityParis : City := { name := "Paris", country := some "France", latitude := 48, longitude := 2 }

/-- Another concrete city for witnesses. -/
def cityLondon : City := { name := "London", country := some "UK", latitude := 51, longitude := 0 }

/-- C1: In every reachable state, the favorites list has at most 20
entries and contains no two entries with the same
(name, latitude, longitude) triple; reachability (`ReachableFav`) closes
the system under the operations that set the favorites list — the toggle
operation (`FavStep.toggle`, which also writes storage) and the startup
restore from the storage written by `saveFavorites`
(`FavStep.restart`). -/
theorem favorites_invariant_reachable (s : FavSys) (h : ReachableFav s) :
    s.favorites.length ≤ 20 ∧
      s.favorites.Pairwise fun a b => sameCity a b = false :=
  (reachableFav_invariant s h).1

/-- Witness for C1: the state reached by toggling a concrete city from
startup satisfies the invariant. -/
theorem favorites_invariant_reachable_witness :
    (FavSys.mk (toggleFavoriteApp initFavSys.favorites cityParis).1
        (toggleFavoriteApp initFavSys.favorites cityParis).2).favorites.length ≤ 20 ∧
      (FavSys.mk (toggleFavoriteApp initFavSys.favorites cityParis).1
        (toggleFavoriteApp initFavSys.favorites cityParis).2).favorites.Pairwise
        (fun a b => sameCity a b = false) :=
  favorites_invariant_reachable _
    (Relation.ReflTransGen.single (FavStep.toggle cityParis initFavSys))

/-- Splitting a list at its unique element satisfying `p`: when `p` holds
of at most one element and of at least one, the list splits as
`l1 ++ e :: l2` with `p e` and `p` false elsewhere, and filtering out `p`
removes exactly `e`. -/
theorem filter_unique_split {α : Type} (p : α → Bool) (l : List α)
    (huniq : l.countP p ≤ 1) (hex : l.any p = true) :
    ∃ l1 e l2, l = l1 ++ e :: l2 ∧ p e = true ∧
      (∀ x ∈ l1, p x = false) ∧ (∀ x ∈ l2, p x = false) ∧
      (l.filter fun c => !(p c)) = l1 ++ l2 := by
  induction l with
  | nil => simp at hex
  | cons a l ih =>
    rcases ha : p a with _ | _
    · have hex2 : l.any p = true := by
        rcases List.any_eq_true.mp hex with ⟨x, hx, hpx⟩
        rcases List.mem_cons.mp hx with hx | hx
        · rw [hx] at hpx; rw [ha] at hpx; cases hpx
        · exact List.any_eq_true.mpr ⟨x, hx, hpx⟩
      have huniq2 : l.countP p ≤ 1 := by
        rw [List.countP_cons, ha] at huniq
        simpa using huniq
      obtain ⟨l1, e, l2, hsplit, hpe, hl1, hl2, hfilter⟩ := ih huniq2 hex2
      refine ⟨a :: l1, e, l2, by rw [hsplit]; rfl, hpe,
        fun x hx => ?_, hl2, ?_⟩
      · rcases List.mem_cons.mp hx with hx | hx
        · rw [hx]; exact ha
        · exact hl1 x hx
      · simp [List.filter_cons, ha, hfilter]
    · have hzero : l.countP p = 0 := by
        rw [List.countP_cons, ha] at huniq
        simp only [if_true] at huniq
        omega
      have hall : ∀ x ∈ l, p x = false := by
        intro x hx
        have := List.countP_eq_zero.mp hzero x hx
        simpa using this
      refine ⟨[], a, l, rfl, ha, by simp, hall, ?_⟩
      have hrest : (l.filter fun c => !(p c)) = l :=
        List.filter_eq_self.mpr fun x hx => by simp [hall x hx]
      simp [List.filter_cons, ha, hrest]

/-- C3: toggling favorite for a selected city on a favorites list that
contains at most one entry equal to it (as every reachable list does):
if such an entry is present, the toggle removes exactly that entry and
keeps every other entry in order; if none is present, the toggle
prepends the city and truncates to the first 20 entries; in both cases
the resulting list is written to the favorites storage key. -/
theorem toggleFavorite_spec (favs : List City) (sc : City)
    (huniq : (favs.countP fun c => sameCity c sc) ≤ 1) :
    (hasFavorited favs (some sc) = true →
      ∃ l1 e l2, favs = l1 ++ e :: l2 ∧ sameCity e sc = true ∧
        (∀ x ∈ l1, sameCity x sc = false) ∧ (∀ x ∈ l2, sameCity x sc = false) ∧
        toggleFavoriteApp favs sc = (l1 ++ l2, some (l1 ++ l2))) ∧
    (hasFavorited favs (some sc) = false →
      toggleFavoriteApp favs sc = ((sc :: favs).take 20, some ((sc :: favs).take 20))) := by
  constructor
  · intro hfav
    have hany : (favs.any fun c => sameCity c sc) = true := by
      rw [← hasFavorited_eq_any]; exact hfav
    obtain ⟨l1, e, l2, hsplit, hpe, hl1, hl2, hfilter⟩ :=
      filter_unique_split (fun c => sameCity c sc) favs huniq hany
    refine ⟨l1, e, l2, hsplit, hpe, hl1, hl2, ?_⟩
    simp only [toggleFavoriteApp, toggleFavorite, hfav, if_true, hfilter]
  · intro hfav
    simp only [toggleFavoriteApp, toggleFavorite, hfav, Bool.false_eq_true, if_false]

/-- Witness for C3 (absent branch): toggling a city not yet favorited
prepends it and writes the result to storage. -/
theorem toggleFavorite_spec_witness :
    toggleFavoriteApp [cityLondon] cityParis =
      ((cityParis :: [cityLondon]).take 20, some ((cityParis :: [cityLondon]).take 20)) :=
  (toggleFavorite_spec [cityLondon] cityParis (by decide)).2 (by decide)

/-- C10: for a favorites list with no entry equal to the selected city,
toggling favorite twice returns the original list when it has fewer than
20 entries, and drops the original last entry when it has exactly 20
(the prepend truncates to 20 before the second toggle removes the
city again). -/
theorem toggleFavorite_double (favs : List City) (sc : City)
    (habs : ∀ c ∈ favs, sameCity c sc = false) (hlen : favs.length ≤ 20) :
    toggleFavorite (toggleFavorite favs sc) sc =
      if favs.length < 20 then favs else favs.dropLast := by
  have hfav1 : hasFavorited favs (some sc) = false :=
    (hasFavorited_eq_false_iff favs sc).mpr habs
  have hstep1 : toggleFavorite favs sc = (sc :: favs).take 20 := by
    simp only [toggleFavorite, hfav1, Bool.false_eq_true, if_false]
  rcases Nat.lt_or_ge favs.length 20 with hlt | hge
  · have htake : (sc :: favs).take 20 = sc :: favs :=
      List.take_of_length_le (by simp; omega)
    have hfav2 : hasFavorited (sc :: favs) (some sc) = true :=
      (hasFavorited_eq_true_iff _ _).mpr ⟨sc, List.mem_cons_self sc favs, sameCity_refl sc⟩
    have hrest : (favs.filter fun c => !(sameCity c sc)) = favs :=
      List.filter_eq_self.mpr fun x hx => by simp [habs x hx]
    rw [hstep1, htake, if_pos hlt]
    simp only [toggleFavorite, hfav2, if_true]
    rw [List.filter_cons]
    simp [sameCity_refl, hrest]
  · have heq : favs.length = 20 := le_antisymm hlen hge
    have htake : (sc :: favs).take 20 = sc :: favs.take 19 := by
      have : (20 : Nat) = 19 + 1 := rfl
      rw [this, List.take_succ_cons]
    have hfav2 : hasFavorited (sc :: favs.take 19) (some sc) = true :=
      (hasFavorited_eq_true_iff _ _).mpr ⟨sc, List.mem_cons_self _ _, sameCity_refl sc⟩
    have hrest : ((favs.take 19).filter fun c => !(sameCity c sc)) = favs.take 19 :=
      List.filter_eq_self.mpr fun x hx => by
        simp [habs x (List.mem_of_mem_take hx)]
    rw [hstep1, htake, if_neg (by omega)]
    simp only [toggleFavorite, hfav2, if_true]
    rw [List.filter_cons]
    simp only [sameCity_refl, Bool.not_true, Bool.false_eq_true, if_false, hrest]
    rw [List.dropLast_eq_take, heq]
/-- Witness for C10: double toggle on a one-entry list without the city
restores the list. -/
theorem toggleFavorite_double_witness :
    toggleFavorite (toggleFavorite [cityLondon] cityParis) cityParis =
      if ([cityLondon] : List City).length < 20 then [cityLondon]
      else ([cityLondon] : List City).dropLast :=
  toggleFavorite_double [cityLondon] cityParis (by decide) (by decide)

/-- Counterexample for C2 as stated: `fetchWeather` truncates all three
hourly arrays with the bound `min 24 hourly.time.length` computed from
the time array alone, so when the upstream temperature array is shorter
than the time array, the stored temperature sequence is shorter than the
stored time sequence — the three stored sequences do not all have
min(24, upstream time length) entries. -/
theorem hourlySlice_unaligned_counterexample :
    (hourlySlice ⟨["t0", "t1"], [20], [50, 60, 70]⟩).time.length = 2 ∧
    (hourlySlice ⟨["t0", "t1"], [20], [50, 60, 70]⟩).temperature_2m.length = 1 ∧
    ¬ ((hourlySlice ⟨["t0", "t1"], [20], [50, 60, 70]⟩).temperature_2m.length =
        min 24 (["t0", "t1"] : List String).length) := by
  refine ⟨rfl, rfl, ?_⟩
  decide

/-- C2 (amended): whenever the upstream temperature and humidity arrays
are as long as the upstream time array, a successful weather fetch
stores exactly min(24, upstream time length) hourly entries, all three
stored sequences have that same length, and they are index-aligned with
the corresponding prefixes of the upstream arrays. -/
theorem hourlySlice_aligned (h : HourlyData) (i : Nat)
    (ht : h.temperature_2m.length = h.time.length)
    (hh : h.relativehumidity_2m.length = h.time.length)
    (hi : i < min 24 h.time.length) :
    (hourlySlice h).time.length = min 24 h.time.length ∧
    (hourlySlice h).temperature_2m.length = min 24 h.time.length ∧
    (hourlySlice h).relativehumidity_2m.length = min 24 h.time.length ∧
    (hourlySlice h).time[i]? = h.time[i]? ∧
    (hourlySlice h).temperature_2m[i]? = h.temperature_2m[i]? ∧
    (hourlySlice h).relativehumidity_2m[i]? = h.relativehumidity_2m[i]? := by
  refine ⟨?_, ?_, ?_, ?_, ?_, ?_⟩
  · simp [hourlySlice]
  · simp [hourlySlice, ht]
  · simp [hourlySlice, hh]
  · exact List.getElem?_take_of_lt hi
  · exact List.getElem?_take_of_lt hi
  · exact List.getElem?_take_of_lt hi

/-- Witness for C2 (amended) at a concrete upstream response with three
equal-length hourly arrays. -/
theorem hourlySlice_aligned_witness :
    (hourlySlice ⟨["t0", "t1"], [20, 21], [50, 60]⟩).time.length =
        min 24 (["t0", "t1"] : List String).length ∧
    (hourlySlice ⟨["t0", "t1"], [20, 21], [50, 60]⟩).temperature_2m.length =
        min 24 (["t0", "t1"] : List String).length ∧
    (hourlySlice ⟨["t0", "t1"], [20, 21], [50, 60]⟩).relativehumidity_2m.length =
        min 24 (["t0", "t1"] : List String).length ∧
    (hourlySlice ⟨["t0", "t1"], [20, 21], [50, 60]⟩).time[1]? =
        (["t0", "t1"] : List String)[1]? ∧
    (hourlySlice ⟨["t0", "t1"], [20, 21], [50, 60]⟩).temperature_2m[1]? =
        ([20, 21] : List Rat)[1]? ∧
    (hourlySlice ⟨["t0", "t1"], [20, 21], [50, 60]⟩).relativehumidity_2m[1]? =
        ([50, 60] : List Rat)[1]? :=
  hourlySlice_aligned ⟨["t0", "t1"], [20, 21], [50, 60]⟩ 1 (by decide) (by decide) (by decide)

/-- C5: the last-city storage key is overwritten with the fetched city
exactly when the weather fetch succeeds. On success the stored last city
becomes the fetched city, and in the effect trace the weather state is
set (index 5) before the storage write (index 6); on an aborted or
otherwise failed fetch no store effect occurs and the stored last city
is unchanged. -/
theorem fetchWeather_lastCity_spec (city : City) (st : WeatherUiState) (d : ForecastResponse) :
    (runWeather st city (FetchOutcome.success d)).storedLastCity = some city ∧
    (fetchWeatherTrace city (FetchOutcome.success d)).get? 5 =
      some (WeatherEff.setWeatherData (shapeWeather d)) ∧
    (fetchWeatherTrace city (FetchOutcome.success d)).get? 6 =
      some (WeatherEff.storeLastCity city) ∧
    (runWeather st city FetchOutcome.abortError).storedLastCity = st.storedLastCity ∧
    (runWeather st city FetchOutcome.failure).storedLastCity = st.storedLastCity ∧
    (fetchWeatherTrace city FetchOutcome.abortError).any WeatherEff.isStoreLastCity = false ∧
    (fetchWeatherTrace city FetchOutcome.failure).any WeatherEff.isStoreLastCity = false := by
  refine ⟨?_, rfl, rfl, ?_, ?_, ?_, ?_⟩ <;>
    simp [runWeather, fetchWeatherTrace, applyWeatherEff, WeatherEff.isStoreLastCity]

/-- C6: error handling of both fetch kinds. An aborted request sets no
error message (no `setError` with a message occurs in its trace, and for
the suggestion fetch the prior error is untouched); any other failure
replaces the error with the generic localized message of its kind; and
the kind's loading flag is false once the operation has ended, for every
outcome. -/
theorem fetch_error_handling_spec (stS : SuggestUiState) (stW : WeatherUiState)
    (name : String) (city : City) (resp : GeocodingResponse) (d : ForecastResponse)
    (hname : (jsTrim name).isEmpty = false) :
    (fetchSuggestionsTrace stS.loadingSuggest name FetchOutcome.abortError).any
      SuggestEff.isShowError = false ∧
    (runSuggest stS name FetchOutcome.abortError).error = stS.error ∧
    (runSuggest stS name FetchOutcome.failure).error = some suggestErrorMsg ∧
    (runSuggest stS name (FetchOutcome.success resp)).loadingSuggest = false ∧
    (runSuggest stS name FetchOutcome.abortError).loadingSuggest = false ∧
    (runSuggest stS name FetchOutcome.failure).loadingSuggest = false ∧
    (fetchWeatherTrace city FetchOutcome.abortError).any WeatherEff.isShowError = false ∧
    (runWeather stW city FetchOutcome.failure).error = some weatherErrorMsg ∧
    (runWeather stW city (FetchOutcome.success d)).loading = false ∧
    (runWeather stW city FetchOutcome.abortError).loading = false ∧
    (runWeather stW city FetchOutcome.failure).loading = false := by
  rcases hls : stS.loadingSuggest with _ | _ <;>
    refine ⟨?_, ?_, ?_, ?_, ?_, ?_, ?_, ?_, ?_, ?_, ?_⟩ <;>
      simp [runSuggest, fetchSuggestionsTrace, applySuggestEff, SuggestEff.isShowError,
        runWeather, fetchWeatherTrace, applyWeatherEff, WeatherEff.isShowError, hname, hls]

/-- Witness for C6 at a concrete non-blank query and concrete states. -/
theorem fetch_error_handling_spec_witness :
    (fetchSuggestionsTrace (SuggestUiState.mk [] false none).loadingSuggest "Paris"
      FetchOutcome.abortError).any SuggestEff.isShowError = false ∧
    (runSuggest (SuggestUiState.mk [] false none) "Paris" FetchOutcome.abortError).error =
      (SuggestUiState.mk [] false none).error ∧
    (runSuggest (SuggestUiState.mk [] false none) "Paris" FetchOutcome.failure).error =
      some suggestErrorMsg ∧
    (runSuggest (SuggestUiState.mk [] false none) "Paris"
      (FetchOutcome.success (GeocodingResponse.mk none))).loadingSuggest = false ∧
    (runSuggest (SuggestUiState.mk [] false none) "Paris"
      FetchOutcome.abortError).loadingSuggest = false ∧
    (runSuggest (SuggestUiState.mk [] false none) "Paris"
      FetchOutcome.failure).loadingSuggest = false ∧
    (fetchWeatherTrace cityParis FetchOutcome.abortError).any WeatherEff.isShowError = false ∧
    (runWeather (WeatherUiState.mk none false none none) cityParis
      FetchOutcome.failure).error = some weatherErrorMsg ∧
    (runWeather (WeatherUiState.mk none false none none) cityParis
      (FetchOutcome.success (ForecastResponse.mk (CurrentWeather.mk 20 3 90 "t") ⟨[], [], []⟩))).loading = false ∧
    (runWeather (WeatherUiState.mk none false none none) cityParis
      FetchOutcome.abortError).loading = false ∧
    (runWeather (WeatherUiState.mk none false none none) cityParis
      FetchOutcome.failure).loading = false :=
  fetch_error_handling_spec (SuggestUiState.mk [] false none)
    (WeatherUiState.mk none false none none) "Paris" cityParis (GeocodingResponse.mk none)
    (ForecastResponse.mk (CurrentWeather.mk 20 3 90 "t") ⟨[], [], []⟩) (by decide)

/-- Trimming a string made only of whitespace gives the empty string. -/
theorem jsTrim_of_whitespace (name : String)
    (hws : ∀ c ∈ name.data, isJsWhitespace c = true) : jsTrim name = "" := by
  have h1 : name.data.dropWhile isJsWhitespace = [] :=
    List.dropWhile_eq_nil_iff.mpr fun x hx => by simp [hws x hx]
  simp [jsTrim, h1]

/-- C9: a query consisting only of whitespace short-circuits
`fetchSuggestions`: the whole effect trace is `setSuggestions([])`, so
the suggestion list ends empty, no network request is issued, the error
is untouched and the suggestion loading flag is unchanged. -/
theorem fetchSuggestions_whitespace_spec (st : SuggestUiState) (name : String)
    (outcome : FetchOutcome GeocodingResponse)
    (hws : ∀ c ∈ name.data, isJsWhitespace c = true) :
    fetchSuggestionsTrace st.loadingSuggest name outcome = [SuggestEff.setSuggestions []] ∧
    (runSuggest st name outcome).suggestions = [] ∧
    (runSuggest st name outcome).error = st.error ∧
    (runSuggest st name outcome).loadingSuggest = st.loadingSuggest ∧
    (fetchSuggestionsTrace st.loadingSuggest name outcome).any
      SuggestEff.isIssueRequest = false := by
  have htrim : (jsTrim name).isEmpty = true := by
    rw [jsTrim_of_whitespace name hws]
    rfl
  refine ⟨?_, ?_, ?_, ?_, ?_⟩ <;>
    simp [runSuggest, fetchSuggestionsTrace, applySuggestEff, SuggestEff.isIssueRequest, htrim]

/-- Witness for C9 at the concrete whitespace query made of a space, a
tab and a full-width space (U+3000). -/
theorem fetchSuggestions_whitespace_spec_witness :
    fetchSuggestionsTrace (SuggestUiState.mk [cityParis] true (some suggestErrorMsg)).loadingSuggest
      " \t\u3000" FetchOutcome.failure = [SuggestEff.setSuggestions []] ∧
    (runSuggest (SuggestUiState.mk [cityParis] true (some suggestErrorMsg)) " \t\u3000"
      FetchOutcome.failure).suggestions = [] ∧
    (runSuggest (SuggestUiState.mk [cityParis] true (some suggestErrorMsg)) " \t\u3000"
      FetchOutcome.failure).error =
      (SuggestUiState.mk [cityParis] true (some suggestErrorMsg)).error ∧
    (runSuggest (SuggestUiState.mk [cityParis] true (some suggestErrorMsg)) " \t\u3000"
      FetchOutcome.failure).loadingSuggest =
      (SuggestUiState.mk [cityParis] true (some suggestErrorMsg)).loadingSuggest ∧
    (fetchSuggestionsTrace
      (SuggestUiState.mk [cityParis] true (some suggestErrorMsg)).loadingSuggest " \t\u3000"
      FetchOutcome.failure).any SuggestEff.isIssueRequest = false :=
  fetchSuggestions_whitespace_spec (SuggestUiState.mk [cityParis] true (some suggestErrorMsg))
    " \t\u3000" FetchOutcome.failure (by decide)

/-- C4: when a request of one kind is in flight (its controller is the
one held in the ref) and a second request of the same kind is issued,
the issue aborts the first request's controller; the abort is permanent
under any further events, so a completion of the first request — however
late it arrives — is an `AbortError` that writes neither the
suggestion/weather value nor the writer. The suggestion and the weather
chain are the two instances `SuggestReqSys` and `WeatherReqSys` of this
model. -/
theorem request_supersede_spec (α : Type) (s : ReqSys α) (i : Nat)
    (es : List (ReqEvent α)) (r : α) (hcur : s.current = some i) :
    i ∈ (issueReq s).aborted ∧
    i ∈ (runReq (issueReq s) es).aborted ∧
    (completeReq (runReq (issueReq s) es) i r).value = (runReq (issueReq s) es).value ∧
    (completeReq (runReq (issueReq s) es) i r).writer = (runReq (issueReq s) es).writer := by
  have h1 : i ∈ (issueReq s).aborted := by
    simp [issueReq, hcur]
  have h2 : i ∈ (runReq (issueReq s) es).aborted := runReq_aborted_mono es (issueReq s) i h1
  exact ⟨h1, h2, (completeReq_aborted _ i r h2).1, (completeReq_aborted _ i r h2).2⟩

/-- Witness for C4 on the suggestion chain: request 0 is in flight, a
second request is issued and completes with a one-city result, then a
late completion of request 0 changes nothing. -/
theorem request_supersede_spec_witness :
    (0 : Nat) ∈ (issueReq (ReqSys.mk 1 (some 0) [] (none : Option (List City)) none)).aborted ∧
    (0 : Nat) ∈ (runReq (issueReq (ReqSys.mk 1 (some 0) [] (none : Option (List City)) none))
      [ReqEvent.complete 1 [cityLondon]]).aborted ∧
    (completeReq (runReq (issueReq (ReqSys.mk 1 (some 0) [] (none : Option (List City)) none))
        [ReqEvent.complete 1 [cityLondon]]) 0 [cityParis]).value =
      (runReq (issueReq (ReqSys.mk 1 (some 0) [] (none : Option (List City)) none))
        [ReqEvent.complete 1 [cityLondon]]).value ∧
    (completeReq (runReq (issueReq (ReqSys.mk 1 (some 0) [] (none : Option (List City)) none))
        [ReqEvent.complete 1 [cityLondon]]) 0 [cityParis]).writer =
      (runReq (issueReq (ReqSys.mk 1 (some 0) [] (none : Option (List City)) none))
        [ReqEvent.complete 1 [cityLondon]]).writer :=
  request_supersede_spec (List City) (ReqSys.mk 1 (some 0) [] none none) 0
    [ReqEvent.complete 1 [cityLondon]] [cityParis] rfl

/-- The initial debounce state: no pending timer, no call fired. -/
def initDebounce : DebounceState := ⟨none, []⟩

/-- Running a chained keystroke sequence from a state with a freshly
armed timer never fires a timer and leaves the last keystroke's timer
armed. -/
theorem runKeystrokes_chained (rest : List (Nat × String)) (t : Nat) (v : String)
    (c : List String) (hchain : chainedFrom t rest = true) :
    runKeystrokes ⟨some (t + 300, v), c⟩ rest =
      ⟨some ((lastKeystroke (t, v) rest).1 + 300, (lastKeystroke (t, v) rest).2), c⟩ := by
  induction rest generalizing t v with
  | nil => rfl
  | cons q rest ih =>
    obtain ⟨t2, v2⟩ := q
    simp only [chainedFrom, Bool.and_eq_true, decide_eq_true_eq] at hchain
    obtain ⟨⟨hle, hlt⟩, hchain2⟩ := hchain
    show runKeystrokes (onQueryChange t2 v2 ⟨some (t + 300, v), c⟩) rest = _
    have hstep : onQueryChange t2 v2 ⟨some (t + 300, v), c⟩ = ⟨some (t2 + 300, v2), c⟩ := by
      simp [onQueryChange, debFire, Nat.not_le.mpr hlt]
    rw [hstep]
    exact ih t2 v2 hchain2

/-- C8: for a sequence of keystrokes in which every keystroke arrives
less than 300 time units after the previous one, no suggestion call
fires during the sequence, the timer armed at the end belongs to the
last keystroke, and once its 300-unit delay elapses the one and only
suggestion call is for the last query string (each keystroke having
cancelled its predecessor's timer before arming its own). -/
theorem debounce_last_query_only (t0 : Nat) (v0 : String) (rest : List (Nat × String))
    (t : Nat) (hchain : chainedFrom t0 rest = true)
    (ht : (lastKeystroke (t0, v0) rest).1 + 300 ≤ t) :
    (runKeystrokes initDebounce ((t0, v0) :: rest)).calls = [] ∧
    (runKeystrokes initDebounce ((t0, v0) :: rest)).pendingTimer =
      some ((lastKeystroke (t0, v0) rest).1 + 300, (lastKeystroke (t0, v0) rest).2) ∧
    (debFire t (runKeystrokes initDebounce ((t0, v0) :: rest))).calls =
      [(lastKeystroke (t0, v0) rest).2] := by
  have hfirst : runKeystrokes initDebounce ((t0, v0) :: rest) =
      runKeystrokes ⟨some (t0 + 300, v0), []⟩ rest := rfl
  rw [hfirst, runKeystrokes_chained rest t0 v0 [] hchain]
  exact ⟨rfl, rfl, by simp [debFire, ht]⟩

/-- Witness for C8: three keystrokes at instants 0, 100, 250, each within
300 units of the previous; only the final query fires, at instant 600. -/
theorem debounce_last_query_only_witness :
    (runKeystrokes initDebounce ((0, "P") :: [(100, "Pa"), (250, "Par")])).calls = [] ∧
    (runKeystrokes initDebounce ((0, "P") :: [(100, "Pa"), (250, "Par")])).pendingTimer =
      some ((lastKeystroke (0, "P") [(100, "Pa"), (250, "Par")]).1 + 300,
        (lastKeystroke (0, "P") [(100, "Pa"), (250, "Par")]).2) ∧
    (debFire 600 (runKeystrokes initDebounce ((0, "P") :: [(100, "Pa"), (250, "Par")]))).calls =
      [(lastKeystroke (0, "P") [(100, "Pa"), (250, "Par")]).2] :=
  debounce_last_query_only 0 "P" [(100, "Pa"), (250, "Par")] 600 (by decide) (by decide)

/-- Counterexample for C7 as stated: the two storage keys are not
handled independently. Both reads happen inside the single `try` of the
startup effect, so malformed JSON under the favorites key throws before
the last-city key is ever read: with a perfectly well-formed stored last
city, no city is restored and no weather fetch is triggered. -/
theorem startupRestore_not_independent_counterexample :
    ¬ ((startupRestore ⟨some FavRaw.bad, some (CityRaw.good cityParis)⟩).2 = some cityParis) ∧
    startupWeatherFetches ⟨some FavRaw.bad, some (CityRaw.good cityParis)⟩ = [] := by
  refine ⟨?_, rfl⟩
  decide

/-- C7 (amended): at startup a missing value under either key is treated
as nothing stored for that key, initialization never crashes and
favorites default to empty; malformed JSON is swallowed but the two keys
share one `try`/`catch`, read favorites-first: malformed favorites JSON
also suppresses the last-city restore, while malformed last-city JSON
leaves the already-restored favorites intact; and a restored
last-selected city triggers exactly one automatic weather fetch for it,
while no restored city triggers none. -/
theorem startupRestore_spec (fr : Option FavRaw) (lr : Option CityRaw)
    (l : List City) (c : City) :
    (startupRestore ⟨some FavRaw.bad, lr⟩).1 = [] ∧
    (startupRestore ⟨none, lr⟩).1 = [] ∧
    (startupRestore ⟨some (FavRaw.good l), lr⟩).1 = l ∧
    (startupRestore ⟨fr, none⟩).2 = none ∧
    (startupRestore ⟨fr, some CityRaw.bad⟩).2 = none ∧
    (startupRestore ⟨some (FavRaw.good l), some (CityRaw.good c)⟩).2 = some c ∧
    (startupRestore ⟨none, some (CityRaw.good c)⟩).2 = some c ∧
    (startupRestore ⟨some FavRaw.bad, some (CityRaw.good c)⟩).2 = none ∧
    startupWeatherFetches ⟨some (FavRaw.good l), some (CityRaw.good c)⟩ = [c] ∧
    startupWeatherFetches ⟨none, some (CityRaw.good c)⟩ = [c] ∧
    startupWeatherFetches ⟨fr, none⟩ = [] ∧
    startupWeatherFetches ⟨fr, some CityRaw.bad⟩ = [] := by
  refine ⟨rfl, ?_, ?_, ?_, ?_, rfl, rfl, rfl, rfl, rfl, ?_, ?_⟩
  · cases lr with
    | none => rfl
    | some cr => cases cr <;> rfl
  · cases lr with
    | none => rfl
    | some cr => cases cr <;> rfl
  · cases fr with
    | none => rfl
    | some f => cases f <;> rfl
  · cases fr with
    | none => rfl
    | some f => cases f <;> rfl
  · cases fr with
    | none => rfl
    | some f => cases f <;> rfl
  · cases fr with
    | none => rfl
    | some f => cases f <;> rfl
